import Mathlib

/-!
Shallow embedding of `he_dns_manager.py` (class `HurricaneDNS`): a
session-backed scrape/mutate client for the Hurricane Electric DNS web
console.  HTTP exchanges are modelled by an environment (`Env`) describing
the pages the provider would serve, and every operation returns, besides
its Python-level result (`Except PyErr α`), the updated client state and
the list of HTTP requests it issued, in order.
-/

namespace HeDns

/-- The Python string method `str.strip()`: drop leading and trailing
whitespace. -/
def pstrip (s : String) : String :=
  String.mk (((s.toList.dropWhile Char.isWhitespace).reverse.dropWhile
    Char.isWhitespace).reverse)

/-- `prefixChars n h`: the character list `n` is a prefix of `h`. -/
def prefixChars : List Char → List Char → Bool
  | [], _ => true
  | _ :: _, [] => false
  | a :: as, b :: bs => a == b && prefixChars as bs

/-- `charsContains n h`: `n` occurs as a contiguous substring of `h`
(scanning left to right, as Python's `in` operator does). -/
def charsContains : List Char → List Char → Bool
  | n, [] => n.isEmpty
  | n, c :: t => prefixChars n (c :: t) || charsContains n t

/-- Python's `needle in hay` test on strings. -/
def pyIn (needle hay : String) : Bool :=
  charsContains needle.toList hay.toList

/-- Python's `str.isdigit()` (restricted to ASCII digits, which is all the
program ever feeds it): nonempty and all characters are digits. -/
def pyIsdigit (s : String) : Bool :=
  !s.isEmpty && s.toList.all Char.isDigit

/-- Python truthiness of an optional string argument (`None` and the empty
string are falsy). -/
def pyTruthy : Option String → Bool
  | none => false
  | some s => !s.isEmpty

/-- Python's `str.lower()` (ASCII, which is all the program compares). -/
def pyLower (s : String) : String :=
  String.mk (s.toList.map Char.toLower)

/-- `re.search(r"hosted_dns_zoneid=(\d+)", s)`: scan for the first position
where the literal marker is followed by at least one digit, and return the
maximal digit run. -/
def scanZoneId : List Char → Option String
  | [] => none
  | c :: t =>
    if prefixChars ("hosted_dns_zoneid=".toList) (c :: t) then
      let rest := (c :: t).drop ("hosted_dns_zoneid=".length)
      let ds := rest.takeWhile Char.isDigit
      if ds.isEmpty then scanZoneId t else some (String.mk ds)
    else scanZoneId t

/-- Try to match `(?:delete|edit)_record\((\d+)\)` at the start of `cs`
with the given literal marker (`"delete_record("` or `"edit_record("`):
the marker, then one or more digits, then a closing parenthesis. -/
def tryRecordMarker (marker : String) (cs : List Char) : Option String :=
  if prefixChars marker.toList cs then
    let rest := cs.drop marker.length
    let ds := rest.takeWhile Char.isDigit
    if ds.isEmpty then none
    else
      match rest.drop ds.length with
      | ')' :: _ => some (String.mk ds)
      | _ => none
  else none

/-- `re.search(r"(?:delete|edit)_record\((\d+)\)", s)`: scan left to right,
trying the `delete_record(` alternative first at each position. -/
def scanRecordId : List Char → Option String
  | [] => none
  | c :: t =>
    match tryRecordMarker "delete_record(" (c :: t) with
    | some s => some s
    | none =>
      match tryRecordMarker "edit_record(" (c :: t) with
      | some s => some s
      | none => scanRecordId t

/-- A Python `dict` with string keys and values, as an insertion-ordered
association list. -/
abbrev Dict := List (String × String)

/-- Python `d[k] = v`: overwrite in place if the key exists, else append. -/
def dictSet : Dict → String → String → Dict
  | [], k, v => [(k, v)]
  | (k', v') :: rest, k, v =>
    if k' == k then (k, v) :: rest else (k', v') :: dictSet rest k v

/-- Python `d.get(k)` / guarded `d[k]`: `none` models a missing key (a
`KeyError` on subscript access). -/
def dictGet : Dict → String → Option String
  | [], _ => none
  | (k', v') :: rest, k => if k' == k then some v' else dictGet rest k

/-- `self.supported_record_types = ['A', 'AAAA']`. -/
def supported_record_types : List String := ["A", "AAAA"]

/-- The `ValueError` message raised for an unsupported record type. -/
def valueErrorMsg (rt : String) : String :=
  "Unsupported record type: " ++ rt ++ ". Only A, AAAA are supported."

/-- Client state: the `logged_in` flag of the `HurricaneDNS` object (the
cookie jar itself is part of the environment, not consulted elsewhere). -/
structure CS where
  logged_in : Bool
deriving DecidableEq

/-- One HTTP request issued by the client, with the data that identifies
it. -/
inductive HttpReq where
  | getRoot
  | postLogin
  | getZonesPage
  | getRecordsPage (zoneId : String)
  | postAddRecord (zoneId rtype name content ttl : String)
  | postDeleteRecord (zoneId recordId : String)
deriving DecidableEq

/-- A Python-level abnormal outcome: `Exception`, `ValueError`, `KeyError`
or `sys.exit`. -/
inductive PyErr where
  | exc (msg : String)
  | valueError (msg : String)
  | keyError (key : String)
  | sysExit (code : Nat)
deriving DecidableEq

/-- A row of the `domains_table` on the zone listing page: the stripped
text of its cells, and the `onclick` attribute of its edit image when one
is present. -/
structure ZoneRow where
  tds : List String
  editOnclick : Option String
deriving DecidableEq

/-- A `tr` of the zone-edit page: its CSS class, the raw text of its
cells, and the `onclick` attributes of the links inside the first cell. -/
structure RecTR where
  cls : String
  tds : List String
  firstCellOnclicks : List String
deriving DecidableEq

/-- A zone as scraped: `{'id': ..., 'name': ...}`. -/
structure Zone where
  id : String
  name : String
deriving DecidableEq

/-- The environment: what the provider would answer to each request. -/
structure Env where
  loginBody : String
  cookiesAfter : Nat
  zonesTable : Option (List ZoneRow)
  recordsPage : String → List RecTR
  addResponse : String
  deleteResponse : String

/-- The `zone` argument of the record operations is polymorphic: a
resolved zone dict or a raw string (numeric id or domain name). -/
inductive ZoneRef where
  | obj (z : Zone)
  | str (s : String)
deriving DecidableEq

/-- `get_zones` returns a single zone when a filter name was given, and
the full list otherwise. -/
inductive ZonesOut where
  | single (z : Zone)
  | list (zs : List Zone)
deriving DecidableEq

/-- `HurricaneDNS.login`: returns immediately when already logged in;
otherwise performs the initial GET and the credential POST, and classifies
the session by the absence of "Incorrect login" in the response body plus
at least one cookie being present. -/
def login (env : Env) (st : CS) : Bool × CS × List HttpReq :=
  if st.logged_in then (true, st, [])
  else
    let ok := !(pyIn "Incorrect login" env.loginBody) && env.cookiesAfter != 0
    (ok, { logged_in := ok }, [.getRoot, .postLogin])

/-- One row of `domains_table` → an optional zone: at least 3 cells, name
from the third cell, id via regex from the edit image's `onclick`. -/
def zoneFromRow (r : ZoneRow) : Option Zone :=
  if 3 ≤ r.tds.length then
    match r.editOnclick with
    | some oc =>
      match scanZoneId oc.toList with
      | some zid => some { id := zid, name := pstrip (r.tds.getD 2 "") }
      | none => none
    | none => none
  else none

/-- The zone-listing scrape: nothing without a `domains_table`, else every
row that yields a zone, in document order. -/
def scrapeZones : Option (List ZoneRow) → List Zone
  | none => []
  | some rows => rows.filterMap zoneFromRow

/-- `HurricaneDNS.get_zones`: login, fetch the listing page, scrape, and
optionally filter by exact domain name — no match is `sys.exit(1)`. -/
def get_zones (env : Env) (st : CS) (domain_name : Option String) :
    Except PyErr ZonesOut × CS × List HttpReq :=
  let L := login env st
  if !L.1 then (.error (.exc "Login failed"), L.2.1, L.2.2)
  else
    let zones := scrapeZones env.zonesTable
    match domain_name with
    | some d =>
      match zones.filter (fun z => z.name == d) with
      | [] => (.error (.sysExit 1), L.2.1, L.2.2 ++ [.getZonesPage])
      | z :: _ => (.ok (.single z), L.2.1, L.2.2 ++ [.getZonesPage])
    | none => (.ok (.list zones), L.2.1, L.2.2 ++ [.getZonesPage])

/-- The zone-id normalization shared by `get_records`, `add_record` and
`delete_record`: a dict passes its `id` through; a non-numeric string is
looked up by name in the scraped zone list (first match wins, and the
string itself is kept when nothing matches).  Called only when already
logged in; the lookup issues one listing GET. -/
def resolveZoneId (env : Env) (zone : ZoneRef) : String × List HttpReq :=
  match zone with
  | .obj z => (z.id, [])
  | .str s =>
    if pyIsdigit s then (s, [])
    else
      match (scrapeZones env.zonesTable).find? (fun z => z.name == s) with
      | some z => (z.id, [.getZonesPage])
      | none => (s, [.getZonesPage])

/-- First record id extractable from the first cell's links: iterate the
`onclick` attributes in order, stopping at the first regex match. -/
def firstLinkRecordId : List String → Option String
  | [] => none
  | oc :: rest =>
    match scanRecordId oc.toList with
    | some i => some i
    | none => firstLinkRecordId rest

/-- One candidate record row (already known to carry a recognized class)
→ an optional record dict, mirroring the loop body of `get_records`:
require at least 5 cells; possibly set `id` from the first cell's links;
then unconditionally overwrite `id`, `name`, `type`, `ttl` from the fixed
columns; keep the row only when its type is supported. -/
def processRow (r : RecTR) : Option Dict :=
  if 5 ≤ r.tds.length then
    let rec1 : Dict :=
      match firstLinkRecordId r.firstCellOnclicks with
      | some i => dictSet [] "id" i
      | none => []
    let rec2 := dictSet rec1 "id" (pstrip (r.tds.getD 1 ""))
    let rec3 := dictSet rec2 "name" (pstrip (r.tds.getD 2 ""))
    let rec4 := dictSet rec3 "type" (pstrip (r.tds.getD 3 ""))
    let rec5 := dictSet rec4 "ttl" (pstrip (r.tds.getD 4 ""))
    match dictGet rec5 "type" with
    | some t => if supported_record_types.contains t then some rec5 else none
    | none => none
  else none

/-- Whether a `tr` carries one of the two recognized row-class markers
(`find_all('tr', class_=['dns_tr', 'dns_tr_alt'])`). -/
def rowClassOk (r : RecTR) : Bool :=
  r.cls == "dns_tr" || r.cls == "dns_tr_alt"

/-- The record scrape of the zone-edit page: the class-marked rows in
document order, each through `processRow`. -/
def scrapeRecords (rows : List RecTR) : List Dict :=
  (rows.filter rowClassOk).filterMap processRow

/-- `HurricaneDNS.get_records`: login, normalize the zone argument, fetch
the zone-edit page and scrape it. -/
def get_records (env : Env) (st : CS) (zone : ZoneRef) :
    Except PyErr (List Dict) × CS × List HttpReq :=
  let L := login env st
  if !L.1 then (.error (.exc "Login failed"), L.2.1, L.2.2)
  else
    let R := resolveZoneId env zone
    (.ok (scrapeRecords (env.recordsPage R.1)), L.2.1,
      L.2.2 ++ R.2 ++ [.getRecordsPage R.1])

/-- `HurricaneDNS.record_exists`: validate the type before anything else,
then list the records and return the first `(name, type)` match, if any. -/
def record_exists (env : Env) (st : CS) (zone : ZoneRef)
    (record_name record_type : String) :
    Except PyErr (Option Dict) × CS × List HttpReq :=
  if !(supported_record_types.contains record_type) then
    (.error (.valueError (valueErrorMsg record_type)), st, [])
  else
    let G := get_records env st zone
    match G.1 with
    | .error e => (.error e, G.2.1, G.2.2)
    | .ok records =>
      (.ok (records.find? (fun r =>
          dictGet r "name" == some record_name &&
          dictGet r "type" == some record_type)), G.2.1, G.2.2)

/-- The add-record success heuristic: "successfully added" or "record
updated" occurs in the lowercased response body. -/
def addSuccess (env : Env) : Bool :=
  pyIn "successfully added" (pyLower env.addResponse) ||
  pyIn "record updated" (pyLower env.addResponse)

/-- `HurricaneDNS.add_record`: login first, then validate the type, then
normalize the zone; with `check_exists` a duplicate `(name, type)` match
short-circuits — the code then subscripts the scraped record's absent
`content` key; otherwise POST the creation form and report the heuristic
outcome. -/
def add_record (env : Env) (st : CS) (zone : ZoneRef)
    (record_type name content : String) (ttl : Nat) (check_exists : Bool) :
    Except PyErr Bool × CS × List HttpReq :=
  let L := login env st
  if !L.1 then (.error (.exc "Login failed"), L.2.1, L.2.2)
  else if !(supported_record_types.contains record_type) then
    (.error (.valueError (valueErrorMsg record_type)), L.2.1, L.2.2)
  else
    let R := resolveZoneId env zone
    if check_exists then
      let E := record_exists env L.2.1 (.str R.1) name record_type
      match E.1 with
      | .error e => (.error e, E.2.1, L.2.2 ++ R.2 ++ E.2.2)
      | .ok (some existing) =>
        match dictGet existing "content" with
        | some _ => (.ok false, E.2.1, L.2.2 ++ R.2 ++ E.2.2)
        | none => (.error (.keyError "content"), E.2.1, L.2.2 ++ R.2 ++ E.2.2)
      | .ok none =>
        (.ok (addSuccess env), E.2.1,
          L.2.2 ++ R.2 ++ E.2.2 ++
            [.postAddRecord R.1 record_type name content (toString ttl)])
    else
      (.ok (addSuccess env), L.2.1,
        L.2.2 ++ R.2 ++
          [.postAddRecord R.1 record_type name content (toString ttl)])

/-- The delete-record success heuristic: "successfully removed" or
"successfully deleted" occurs in the lowercased response body. -/
def deleteSuccess (env : Env) : Bool :=
  pyIn "successfully removed" (pyLower env.deleteResponse) ||
  pyIn "successfully deleted" (pyLower env.deleteResponse)

/-- The tail of `delete_record` once a record id is in hand: unless
`force_delete`, consult the operator's answer (anything whose lowercase
form differs from "y" cancels); then POST the deletion form. -/
def deleteConfirmAndPost (env : Env) (st : CS) (zid rid : String)
    (force_delete : Bool) (confirmInput : String) (acc : List HttpReq) :
    Except PyErr Bool × CS × List HttpReq :=
  if !force_delete && pyLower confirmInput != "y" then (.ok false, st, acc)
  else (.ok (deleteSuccess env), st, acc ++ [.postDeleteRecord zid rid])

/-- `HurricaneDNS.delete_record`: login first, then validate the type,
normalize the zone, resolve the record id from the name when no truthy id
was given (a missing record is a soft `false`), then the confirmation
gate and the deletion POST. -/
def delete_record (env : Env) (st : CS) (zone : ZoneRef)
    (record_id record_name : Option String) (record_type : String)
    (force_delete : Bool) (confirmInput : String) :
    Except PyErr Bool × CS × List HttpReq :=
  let L := login env st
  if !L.1 then (.error (.exc "Login failed"), L.2.1, L.2.2)
  else if !(supported_record_types.contains record_type) then
    (.error (.valueError (valueErrorMsg record_type)), L.2.1, L.2.2)
  else
    let R := resolveZoneId env zone
    if !(pyTruthy record_id) && pyTruthy record_name then
      let E := record_exists env L.2.1 (.str R.1) (record_name.getD "")
        record_type
      match E.1 with
      | .error e => (.error e, E.2.1, L.2.2 ++ R.2 ++ E.2.2)
      | .ok none => (.ok false, E.2.1, L.2.2 ++ R.2 ++ E.2.2)
      | .ok (some existing) =>
        match dictGet existing "id" with
        | some rid =>
          deleteConfirmAndPost env E.2.1 R.1 rid force_delete confirmInput
            (L.2.2 ++ R.2 ++ E.2.2)
        | none => (.error (.keyError "id"), E.2.1, L.2.2 ++ R.2 ++ E.2.2)
    else
      deleteConfirmAndPost env L.2.1 R.1 (record_id.getD "") force_delete
        confirmInput (L.2.2 ++ R.2)

/-- Whether a request is part of the login exchange itself. -/
def isLoginReq : HttpReq → Bool
  | .getRoot => true
  | .postLogin => true
  | _ => false

/-- The predicate under which a class-marked row survives the record
scrape: at least 5 cells and a supported type column. -/
def keepCells (r : RecTR) : Bool :=
  decide (5 ≤ r.tds.length) &&
    supported_record_types.contains (pstrip (r.tds.getD 3 ""))

/-- The record dict a surviving row yields: the four fixed columns. -/
def extractRow (r : RecTR) : Dict :=
  [("id", pstrip (r.tds.getD 1 "")), ("name", pstrip (r.tds.getD 2 "")),
   ("type", pstrip (r.tds.getD 3 "")), ("ttl", pstrip (r.tds.getD 4 ""))]

/-- Whether a string is the decimal representation of a natural number
(nonempty, all digits): the shape an "integer seconds" TTL would have. -/
def isNatString (s : String) : Bool :=
  !s.isEmpty && s.toList.all Char.isDigit

/-- A benign environment: login succeeds, every page is empty. -/
def envPlain : Env where
  loginBody := "Welcome to Hurricane Electric"
  cookiesAfter := 1
  zonesTable := none
  recordsPage := fun _ => []
  addResponse := ""
  deleteResponse := ""

/-- Environment for the duplicate-add scenario: zone 123 already holds an
A record for www.example.com. -/
def envDup : Env where
  loginBody := "Welcome to Hurricane Electric"
  cookiesAfter := 1
  zonesTable := none
  recordsPage := fun _ =>
    [⟨"dns_tr", ["", "77", "www.example.com", "A", "300"], []⟩]
  addResponse := "record added successfully added"
  deleteResponse := ""

/-- Environment whose account has two zones, alpha and beta. -/
def envTwoZones : Env where
  loginBody := "Welcome to Hurricane Electric"
  cookiesAfter := 1
  zonesTable := some
    [⟨["", "", "alpha.example.com"], some "url?hosted_dns_zoneid=11&menu=edit_zone"⟩,
     ⟨["", "", "beta.example.com"], some "url?hosted_dns_zoneid=22&menu=edit_zone"⟩]
  recordsPage := fun _ => []
  addResponse := ""
  deleteResponse := ""

/-- Environment whose zone-edit page mixes two A rows with a CNAME row, an
unmarked row and a short row. -/
def envMixedRows : Env where
  loginBody := "Welcome to Hurricane Electric"
  cookiesAfter := 1
  zonesTable := none
  recordsPage := fun _ =>
    [⟨"dns_tr", ["", "101", "a.example.com", "A", "300"], []⟩,
     ⟨"dns_tr_alt", ["", "102", "b.example.com", "CNAME", "300"], []⟩,
     ⟨"dns_tr", ["", "103", "c.example.com", "A", "86400"], []⟩,
     ⟨"other", ["", "104", "d.example.com", "A", "300"], []⟩,
     ⟨"dns_tr", ["", "105"], []⟩]
  addResponse := ""
  deleteResponse := ""

/-- Environment in which the login exchange fails: the response body
carries the incorrect-login marker. -/
def envBadLogin : Env where
  loginBody := "Incorrect login or password"
  cookiesAfter := 3
  zonesTable := none
  recordsPage := fun _ => []
  addResponse := ""
  deleteResponse := ""

lemma prefixChars_iff (n h : List Char) : prefixChars n h = true ↔ n <+: h := by
  induction n generalizing h with
  | nil => simp [prefixChars]
  | cons a as ih =>
    cases h with
    | nil => simp [prefixChars]
    | cons b bs => simp [prefixChars, List.cons_prefix_cons, ih]

lemma charsContains_iff (n h : List Char) :
    charsContains n h = true ↔ n <:+: h := by
  induction h with
  | nil => simp [charsContains, List.isEmpty_iff]
  | cons c t ih =>
    simp [charsContains, prefixChars_iff, ih, List.infix_cons_iff]

lemma pyIn_iff (needle hay : String) :
    pyIn needle hay = true ↔ needle.toList <:+: hay.toList :=
  charsContains_iff _ _

lemma login_trace (env : Env) (st : CS) :
    (login env st).2.2 = [] ∨
    (login env st).2.2 = [HttpReq.getRoot, HttpReq.postLogin] := by
  by_cases h : st.logged_in <;> simp [login, h]

lemma processRow_eq (r : RecTR) :
    processRow r = if keepCells r then some (extractRow r) else none := by
  by_cases h5 : 5 ≤ r.tds.length
  · unfold processRow keepCells
    rw [if_pos h5, decide_eq_true h5, Bool.true_and]
    cases hf : firstLinkRecordId r.firstCellOnclicks <;> simp only [hf] <;> rfl
  · unfold processRow keepCells
    rw [if_neg h5, decide_eq_false h5, Bool.false_and]
    simp

lemma scrapeRecords_eq (rows : List RecTR) :
    scrapeRecords rows =
      (rows.filter (fun r => rowClassOk r && keepCells r)).map extractRow := by
  unfold scrapeRecords
  induction rows with
  | nil => rfl
  | cons r t ih =>
    cases hc : rowClassOk r <;> cases hk : keepCells r <;>
      simp [List.filter_cons, hc, hk, processRow_eq, ih]

/-- C1: the spec says a duplicate `(name, type)` add with `checkExists`
returns false and reports the existing content with no mutating POST; the
code instead subscripts the scraped record's nonexistent `content` key and
raises `KeyError` (only the no-POST half holds): the record listing
produces dicts with keys id, name, type, ttl only. -/
theorem add_record_duplicate_raises_keyerror :
    add_record envDup ⟨false⟩ (.str "123") "A" "www.example.com" "5.6.7.8"
        300 true
      = (.error (.keyError "content"), ⟨true⟩,
         [HttpReq.getRoot, HttpReq.postLogin, HttpReq.getRecordsPage "123"]) :=
  rfl

/-- C2 counterexample: `add_record` with the unsupported type CNAME on a
fresh session does fail with `ValueError`, but only after the login
exchange has issued two HTTP requests — refuting "no HTTP request,
including login, is issued". -/
theorem add_record_invalid_type_network_cex :
    add_record envPlain ⟨false⟩ (.str "123") "CNAME" "host.example.com"
        "1.2.3.4" 300 true
      = (.error (.valueError (valueErrorMsg "CNAME")), ⟨true⟩,
         [HttpReq.getRoot, HttpReq.postLogin]) ∧
    ([HttpReq.getRoot, HttpReq.postLogin] : List HttpReq) ≠ [] :=
  ⟨rfl, by simp⟩

/-- C2 amended: an unsupported record type makes `record_exists` fail with
`ValueError` before any network call, and makes `add_record` and
`delete_record` fail (after their initial login step) without issuing any
request beyond the login exchange itself — in particular no listing or
mutation request. -/
theorem invalid_type_rejected_before_console_traffic
    (env : Env) (st : CS) (zone : ZoneRef) (rt nm ct rname ci : String)
    (ttl : Nat) (ce fd : Bool) (rid rn : Option String)
    (h : supported_record_types.contains rt = false) :
    record_exists env st zone rname rt
        = (.error (.valueError (valueErrorMsg rt)), st, []) ∧
    (∃ e, (add_record env st zone rt nm ct ttl ce).1 = .error e) ∧
    (add_record env st zone rt nm ct ttl ce).2.2.all isLoginReq = true ∧
    (∃ e, (delete_record env st zone rid rn rt fd ci).1 = .error e) ∧
    (delete_record env st zone rid rn rt fd ci).2.2.all isLoginReq = true := by
  have h' : rt ∉ supported_record_types := by simpa using h
  refine ⟨by simp [record_exists, h, h'], ?_, ?_, ?_, ?_⟩
  · cases hok : (login env st).1
    · exact ⟨.exc "Login failed", by simp [add_record, hok]⟩
    · exact ⟨.valueError (valueErrorMsg rt), by simp [add_record, hok, h, h']⟩
  · rcases login_trace env st with htr | htr <;>
      cases hok : (login env st).1 <;>
        simp [add_record, hok, h, h', htr, isLoginReq]
  · cases hok : (login env st).1
    · exact ⟨.exc "Login failed", by simp [delete_record, hok]⟩
    · exact ⟨.valueError (valueErrorMsg rt),
        by simp [delete_record, hok, h, h']⟩
  · rcases login_trace env st with htr | htr <;>
      cases hok : (login env st).1 <;>
        simp [delete_record, hok, h, h', htr, isLoginReq]

/-- C2 amended, witnessed at CNAME on a fresh session. -/
theorem invalid_type_rejected_before_console_traffic_witness :
    record_exists envPlain ⟨false⟩ (.str "1") "n.example.com" "CNAME"
      = (.error (.valueError (valueErrorMsg "CNAME")), ⟨false⟩, []) :=
  (invalid_type_rejected_before_console_traffic envPlain ⟨false⟩ (.str "1")
    "CNAME" "n.example.com" "1.2.3.4" "n.example.com" "" 300 true false
    none none rfl).1

/-- C3: when the session is already authenticated, `login` returns true
with no network exchange and leaves the client state unchanged. -/
theorem login_idempotent (env : Env) (st : CS) (h : st.logged_in = true) :
    login env st = (true, st, []) := by
  simp [login, h]

/-- C3, witnessed on an authenticated state. -/
theorem login_idempotent_witness :
    login envPlain ⟨true⟩ = (true, ⟨true⟩, []) :=
  login_idempotent envPlain ⟨true⟩ rfl

/-- C4: with `force_delete = false` and a confirmation answer other than
"y", `delete_record` returns false and issues no request at all (in
particular no deletion POST); with `force_delete = true` the prompt is
never consulted (any two answers give identical results) and the deletion
POST is issued. -/
theorem delete_record_confirmation_gate
    (env : Env) (st : CS) (zid rid : String) (rn : Option String)
    (rt ci c₁ c₂ : String)
    (hlog : st.logged_in = true) (hzid : pyIsdigit zid = true)
    (hrt : supported_record_types.contains rt = true)
    (hrid : rid.isEmpty = false) (hci : pyLower ci ≠ "y") :
    delete_record env st (.str zid) (some rid) rn rt false ci
        = (.ok false, st, []) ∧
    delete_record env st (.str zid) (some rid) rn rt true c₁
        = (.ok (deleteSuccess env), st, [HttpReq.postDeleteRecord zid rid]) ∧
    delete_record env st (.str zid) (some rid) rn rt true c₁
        = delete_record env st (.str zid) (some rid) rn rt true c₂ := by
  have hrt' : rt ∈ supported_record_types := by simpa using hrt
  refine ⟨?_, ?_, ?_⟩ <;>
    simp [delete_record, login, hlog, resolveZoneId, hzid, hrt, hrt',
      deleteConfirmAndPost, pyTruthy, hrid, hci]

/-- C4, witnessed: answer "n" cancels with an empty trace; forced deletion
posts regardless. -/
theorem delete_record_confirmation_gate_witness :
    delete_record envPlain ⟨true⟩ (.str "55") (some "9") none "A" false "n"
        = (.ok false, ⟨true⟩, []) ∧
    delete_record envPlain ⟨true⟩ (.str "55") (some "9") none "A" true "n"
        = (.ok (deleteSuccess envPlain), ⟨true⟩,
           [HttpReq.postDeleteRecord "55" "9"]) :=
  ⟨(delete_record_confirmation_gate envPlain ⟨true⟩ "55" "9" none "A" "n"
      "n" "q" rfl rfl rfl rfl (by decide)).1,
   (delete_record_confirmation_gate envPlain ⟨true⟩ "55" "9" none "A" "n"
      "n" "q" rfl rfl rfl rfl (by decide)).2.1⟩

/-- C5: with a filter name, `get_zones` returns the first scraped zone
whose name is exactly the filter (string equality, hence case-sensitive),
and terminates via `sys.exit(1)` — returning no zone — when no scraped
zone's name equals it. -/
theorem get_zones_filter_exact_first_or_fatal
    (env : Env) (st : CS) (d : String) (hlog : st.logged_in = true) :
    ((scrapeZones env.zonesTable).filter (fun z => z.name == d) = [] →
      get_zones env st (some d)
        = (.error (.sysExit 1), st, [HttpReq.getZonesPage])) ∧
    (∀ z zs,
      (scrapeZones env.zonesTable).filter (fun z => z.name == d) = z :: zs →
      get_zones env st (some d)
        = (.ok (.single z), st, [HttpReq.getZonesPage])) := by
  constructor
  · intro hnone
    simp [get_zones, login, hlog, hnone]
  · intro z zs hcons
    simp [get_zones, login, hlog, hcons]

/-- C5, witnessed: a missing name exits fatally, a present name returns
that zone. -/
theorem get_zones_filter_exact_first_or_fatal_witness :
    get_zones envTwoZones ⟨true⟩ (some "nonexistent.example.com")
        = (.error (.sysExit 1), ⟨true⟩, [HttpReq.getZonesPage]) ∧
    get_zones envTwoZones ⟨true⟩ (some "beta.example.com")
        = (.ok (.single ⟨"22", "beta.example.com"⟩), ⟨true⟩,
           [HttpReq.getZonesPage]) :=
  ⟨(get_zones_filter_exact_first_or_fatal envTwoZones ⟨true⟩
      "nonexistent.example.com" rfl).1 (by decide),
   (get_zones_filter_exact_first_or_fatal envTwoZones ⟨true⟩
      "beta.example.com" rfl).2 ⟨"22", "beta.example.com"⟩ [] (by decide)⟩

/-- C6: `get_records` returns exactly the page rows that carry one of the
two recognized class markers, have at least five cells and a supported
type column, in original row order, each reduced to its four fixed
columns; every other row is dropped. -/
theorem get_records_row_filtering
    (env : Env) (st : CS) (zid : String)
    (hlog : st.logged_in = true) (hzid : pyIsdigit zid = true) :
    get_records env st (.str zid)
      = (.ok (((env.recordsPage zid).filter
            (fun r => rowClassOk r && keepCells r)).map extractRow),
         st, [HttpReq.getRecordsPage zid]) := by
  simp [get_records, login, hlog, resolveZoneId, hzid, scrapeRecords_eq]

/-- C6, witnessed on a page with two A rows, a CNAME row, an unmarked row
and a short row: exactly the two A records come back, in order. -/
theorem get_records_row_filtering_witness :
    get_records envMixedRows ⟨true⟩ (.str "123")
      = (.ok [[("id", "101"), ("name", "a.example.com"), ("type", "A"),
               ("ttl", "300")],
              [("id", "103"), ("name", "c.example.com"), ("type", "A"),
               ("ttl", "86400")]],
         ⟨true⟩, [HttpReq.getRecordsPage "123"]) :=
  get_records_row_filtering envMixedRows ⟨true⟩ "123" rfl rfl

/-- C7 counterexample: the scraper performs no numeric conversion or
validation of the TTL column and produces no `content` key, so a row whose
TTL cell reads "banana" yields a record whose ttl field is the
non-numeric string "banana" and whose content lookup fails — refuting
"ttl is an integer number of seconds" and the stated record shape. -/
theorem record_ttl_not_integer_cex :
    scrapeRecords [⟨"dns_tr", ["", "77", "www.example.com", "A", "banana"], []⟩]
      = [[("id", "77"), ("name", "www.example.com"), ("type", "A"),
          ("ttl", "banana")]] ∧
    isNatString "banana" = false ∧
    dictGet [("id", "77"), ("name", "www.example.com"), ("type", "A"),
      ("ttl", "banana")] "content" = none := by
  refine ⟨rfl, rfl, rfl⟩

/-- C7 amended: every record produced by the scrape has exactly the keys
id, name, type, ttl (no `content` key), its type is "A" or "AAAA", and
its ttl is the raw stripped text of the TTL column of some page row — a
string, not a validated integer. -/
theorem record_shape_amended (rows : List RecTR) (d : Dict)
    (hd : d ∈ scrapeRecords rows) :
    d.map Prod.fst = ["id", "name", "type", "ttl"] ∧
    (dictGet d "type" = some "A" ∨ dictGet d "type" = some "AAAA") ∧
    dictGet d "content" = none ∧
    ∃ r ∈ rows, dictGet d "ttl" = some (pstrip (r.tds.getD 4 "")) := by
  rw [scrapeRecords_eq] at hd
  rcases List.mem_map.mp hd with ⟨r, hr, rfl⟩
  have hmem := List.mem_filter.mp hr
  have hk : keepCells r = true := by
    have := hmem.2
    simp only [Bool.and_eq_true] at this
    exact this.2
  have hty : pstrip (r.tds.getD 3 "") = "A" ∨
      pstrip (r.tds.getD 3 "") = "AAAA" := by
    have := hk
    unfold keepCells at this
    simp only [Bool.and_eq_true] at this
    have hc := this.2
    simpa [supported_record_types] using hc
  refine ⟨rfl, ?_, rfl, ⟨r, hmem.1, rfl⟩⟩
  rcases hty with h | h <;> [left; right] <;> simpa [extractRow, dictGet] using h

/-- C7 amended, witnessed on a single surviving row. -/
theorem record_shape_amended_witness :
    ([("id", "77"), ("name", "www.example.com"), ("type", "A"),
      ("ttl", "300")] : Dict).map Prod.fst = ["id", "name", "type", "ttl"] ∧
    (dictGet [("id", "77"), ("name", "www.example.com"), ("type", "A"),
      ("ttl", "300")] "type" = some "A" ∨
     dictGet [("id", "77"), ("name", "www.example.com"), ("type", "A"),
      ("ttl", "300")] "type" = some "AAAA") ∧
    dictGet [("id", "77"), ("name", "www.example.com"), ("type", "A"),
      ("ttl", "300")] "content" = none ∧
    ∃ r ∈ [(⟨"dns_tr", ["", "77", "www.example.com", "A", "300"], []⟩ : RecTR)],
      dictGet [("id", "77"), ("name", "www.example.com"), ("type", "A"),
        ("ttl", "300")] "ttl" = some (pstrip (r.tds.getD 4 "")) :=
  record_shape_amended
    [⟨"dns_tr", ["", "77", "www.example.com", "A", "300"], []⟩]
    [("id", "77"), ("name", "www.example.com"), ("type", "A"),
      ("ttl", "300")] (by decide)

/-- C8: the record scrape's output never depends on the first cell's
onclick attributes — the id extracted from them is unconditionally
overwritten — and every produced record's id equals the stripped value of
the fixed id column. -/
theorem record_id_from_column_only
    (cls : String) (tds ocs ocs' : List String) :
    processRow ⟨cls, tds, ocs⟩ = processRow ⟨cls, tds, ocs'⟩ ∧
    (∀ d, processRow ⟨cls, tds, ocs⟩ = some d →
      dictGet d "id" = some (pstrip (tds.getD 1 ""))) := by
  constructor
  · rw [processRow_eq, processRow_eq]
    rfl
  · intro d hd
    rw [processRow_eq] at hd
    by_cases hk : keepCells ⟨cls, tds, ocs⟩
    · rw [if_pos hk] at hd
      cases hd
      rfl
    · rw [if_neg hk] at hd
      cases hd

/-- C8, witnessed on a row whose first cell does carry an extractable
`delete_record(99)` id: the output is the same as with no links at all and
its id is the column value 42, not 99. -/
theorem record_id_from_column_only_witness :
    scanRecordId ("javascript:delete_record(99);".toList) = some "99" ∧
    processRow ⟨"dns_tr", ["x", "42", "www.example.com", "A", "300"],
        ["javascript:delete_record(99);"]⟩
      = processRow ⟨"dns_tr", ["x", "42", "www.example.com", "A", "300"], []⟩ ∧
    dictGet [("id", "42"), ("name", "www.example.com"), ("type", "A"),
      ("ttl", "300")] "id" = some (pstrip (["x", "42", "www.example.com",
        "A", "300"].getD 1 "")) :=
  ⟨by decide,
   (record_id_from_column_only "dns_tr" ["x", "42", "www.example.com", "A",
      "300"] ["javascript:delete_record(99);"] []).1,
   (record_id_from_column_only "dns_tr" ["x", "42", "www.example.com", "A",
      "300"] ["javascript:delete_record(99);"] []).2
     [("id", "42"), ("name", "www.example.com"), ("type", "A"),
      ("ttl", "300")] (by decide)⟩

/-- C9: on a not-yet-authenticated session, the login exchange classifies
the session as authenticated exactly when the response body does not
contain the substring "Incorrect login" and at least one cookie is
present; the stored flag equals the returned boolean (so failure returns
false) and exactly the two login requests are issued. -/
theorem login_success_heuristic (env : Env) (st : CS)
    (h : st.logged_in = false) :
    ((login env st).1 = true ↔
      ¬ ("Incorrect login".toList <:+: env.loginBody.toList) ∧
        0 < env.cookiesAfter) ∧
    (login env st).2.1 = ⟨(login env st).1⟩ ∧
    (login env st).2.2 = [HttpReq.getRoot, HttpReq.postLogin] := by
  refine ⟨?_, by simp [login, h], by simp [login, h]⟩
  rw [← pyIn_iff]
  simp [login, h, Nat.pos_iff_ne_zero]

/-- C9, witnessed: a welcome body with cookies present authenticates. -/
theorem login_success_heuristic_witness :
    (login envPlain ⟨false⟩).1 = true :=
  ((login_success_heuristic envPlain ⟨false⟩ rfl).1).2
    ⟨by decide, by decide⟩

/-- C10: whenever the login step reports failure, each of the four
authenticated operations stops with the exception "Login failed" and
issues no request beyond the login exchange itself. -/
theorem operations_raise_on_login_failure
    (env : Env) (st : CS) (dn : Option String) (zone : ZoneRef)
    (rt nm ct ci : String) (ttl : Nat) (ce fd : Bool)
    (rid rn : Option String)
    (h : (login env st).1 = false) :
    get_zones env st dn
        = (.error (.exc "Login failed"), (login env st).2.1,
           (login env st).2.2) ∧
    get_records env st zone
        = (.error (.exc "Login failed"), (login env st).2.1,
           (login env st).2.2) ∧
    add_record env st zone rt nm ct ttl ce
        = (.error (.exc "Login failed"), (login env st).2.1,
           (login env st).2.2) ∧
    delete_record env st zone rid rn rt fd ci
        = (.error (.exc "Login failed"), (login env st).2.1,
           (login env st).2.2) := by
  refine ⟨?_, ?_, ?_, ?_⟩ <;>
    simp [get_zones, get_records, add_record, delete_record, h]

/-- C10, witnessed on a rejected login. -/
theorem operations_raise_on_login_failure_witness :
    get_zones envBadLogin ⟨false⟩ none
      = (.error (.exc "Login failed"), ⟨false⟩,
         [HttpReq.getRoot, HttpReq.postLogin]) :=
  (operations_raise_on_login_failure envBadLogin ⟨false⟩ none (.str "1")
    "A" "n.example.com" "1.2.3.4" "" 300 true false none none
    (by decide)).1

end HeDns
